import Mathlib

/-!
Verification of the Solution-First Problem Generation and Verification Engine
(`backend/generator_linear_impl.py` and `backend/generator_inequalities_impl.py`).

Every expression that flows through the two generator modules is linear in the
single variable `x`, so symbolic expressions are embedded as the pair
(coefficient of x, constant term) over `ℚ`.  Randomness is made explicit: each
`random.randint` / `random.choice` draw becomes a parameter, and the
post-conditions that the drawing loops establish (ranges, nonzero-ness,
distinctness after re-rolling) become hypotheses collected in a `Valid`
predicate on the draw record.  The LaTeX / `str` payloads produced by the CAS
printer are rendered by explicit string functions where a step description
needs them; the expression shown after each step is kept structurally (as an
equation, inequality or solution set over the same carrier), since the claims
concern which mathematical object each step states.
-/

/-- A linear expression `coeff * x + const` in the single variable `x`. -/
structure LinExpr where
  coeff : ℚ
  const : ℚ
deriving DecidableEq, Repr

/-- Value of a linear expression at `x = v`. -/
def LinExpr.eval (e : LinExpr) (v : ℚ) : ℚ := e.coeff * v + e.const

/-- Subtract a constant from a linear expression. -/
def LinExpr.subC (e : LinExpr) (c : ℚ) : LinExpr := ⟨e.coeff, e.const - c⟩

/-- Subtract the term `t * x` from a linear expression. -/
def LinExpr.subX (e : LinExpr) (t : ℚ) : LinExpr := ⟨e.coeff - t, e.const⟩

/-- Divide a linear expression by a nonzero scalar. -/
def LinExpr.divC (e : LinExpr) (c : ℚ) : LinExpr := ⟨e.coeff / c, e.const / c⟩

/-- The bare variable `x` as a linear expression. -/
def xLin : LinExpr := ⟨1, 0⟩

/-- A constant as a linear expression. -/
def constLin (c : ℚ) : LinExpr := ⟨0, c⟩

/-- Relational operator of an inequality, from the set used by the generator. -/
inductive RelOp where
  | lt
  | le
  | gt
  | ge
deriving DecidableEq, Repr

/-- The operator as the generator prints it. -/
def RelOp.render : RelOp → String
  | .lt => "<"
  | .le => "<="
  | .gt => ">"
  | .ge => ">="

/-- The logically reversed operator (direction flipped). -/
def RelOp.flip : RelOp → RelOp
  | .lt => .gt
  | .le => .ge
  | .gt => .lt
  | .ge => .le

/-- Solution set of a linear inequality over the reals: a ray with rational
boundary, as returned by the CAS solver. -/
inductive SolSet where
  | lt (b : ℚ)
  | le (b : ℚ)
  | gt (b : ℚ)
  | ge (b : ℚ)
deriving DecidableEq, Repr

/-- The ray `x op b` for a relational operator `op`. -/
def rayOfOp (op : RelOp) (b : ℚ) : SolSet :=
  match op with
  | .lt => .lt b
  | .le => .le b
  | .gt => .gt b
  | .ge => .ge b

/-- Structural form of the mathematical structure of a linear inequality
(the `InequalityProblem` dataclass: left expression, operator, right constant;
the builders always put a constant on the right). -/
structure InequalityProblem where
  left : LinExpr
  op : RelOp
  right : ℚ
deriving DecidableEq, Repr

/-- The mathematical object a solution step displays: an equation between two
linear expressions, an inequality, or a solution set. -/
inductive StepExpr where
  | eq (lhs rhs : LinExpr)
  | ineq (p : InequalityProblem)
  | solset (s : SolSet)
deriving DecidableEq, Repr

/-- One step of a step-by-step solution (the `SolutionStep` dataclass):
position, description text, and the expression shown after the step. -/
structure SolutionStep where
  index : ℤ
  description : String
  expression : StepExpr
deriving DecidableEq, Repr

/-! ### Rendering (the CAS printers, restricted to the shapes that occur) -/

/-- LaTeX of a rational number: an integer prints as its digits, a proper
fraction as `\frac{p}{q}` with the minus sign pulled out front. -/
def latexRat (q : ℚ) : String :=
  if q.den = 1 then toString q.num
  else if q.num < 0 then
    "- \\frac\x7b" ++ toString (-q.num) ++ "\x7d\x7b" ++ toString q.den ++ "\x7d"
  else
    "\\frac\x7b" ++ toString q.num ++ "\x7d\x7b" ++ toString q.den ++ "\x7d"

/-- LaTeX of the term `c * x`: unit coefficients are elided, integer
coefficients are juxtaposed, fractional ones render as a fraction with the
variable in the numerator. -/
def latexTerm (c : ℚ) : String :=
  if c = 0 then "0"
  else if c.den = 1 then
    if c.num = 1 then "x"
    else if c.num = -1 then "- x"
    else if c.num < 0 then "- " ++ toString (-c.num) ++ " x"
    else toString c.num ++ " x"
  else if c.num < 0 then
    "- \\frac\x7b" ++ (if c.num = -1 then "x" else toString (-c.num) ++ " x")
      ++ "\x7d\x7b" ++ toString c.den ++ "\x7d"
  else
    "\\frac\x7b" ++ (if c.num = 1 then "x" else toString c.num ++ " x")
      ++ "\x7d\x7b" ++ toString c.den ++ "\x7d"

/-- LaTeX of a linear expression, variable term first. -/
def latexLinExpr (e : LinExpr) : String :=
  if e.coeff = 0 then latexRat e.const
  else if e.const = 0 then latexTerm e.coeff
  else if e.const < 0 then latexTerm e.coeff ++ " - " ++ latexRat (-e.const)
  else latexTerm e.coeff ++ " + " ++ latexRat e.const

/-- LaTeX of the equation `lhs = rhs`. -/
def latexEqn (lhs rhs : LinExpr) : String :=
  latexLinExpr lhs ++ " = " ++ latexLinExpr rhs

/-- Plain string form of a rational (the `str` printer): `5`, `-5`, `5/2`. -/
def strRat (q : ℚ) : String :=
  if q.den = 1 then toString q.num
  else toString q.num ++ "/" ++ toString q.den

/-- Plain string form of a list of rationals, as Python prints a list. -/
def strRatList (l : List ℚ) : String :=
  "[" ++ String.intercalate ", " (l.map strRat) ++ "]"

/-- Plain string form of a solution-set ray, as the CAS prints intervals. -/
def strSolSet : SolSet → String
  | .lt b => "Interval.open(-oo, " ++ strRat b ++ ")"
  | .le b => "Interval(-oo, " ++ strRat b ++ ")"
  | .gt b => "Interval.open(" ++ strRat b ++ ", oo)"
  | .ge b => "Interval(" ++ strRat b ++ ", oo)"

/-! ### The equation generator (`generator_linear_impl.py`) -/

namespace EqGen

/-- One record of the random draws a single equation-generation call can
consume.  Each field is the final value a `random.randint` / `random.choice`
call (or re-rolling loop) produced; `Valid` below records the post-conditions
those draws satisfy. -/
structure Rand where
  x0small : ℤ
  x0large : ℤ
  b1 : ℤ
  plus1 : Bool
  a2 : ℤ
  b2 : ℤ
  a3 : ℤ
  c3 : ℤ
  b3 : ℤ
  p4 : ℤ
  q4 : ℤ
  negA4 : Bool
  r4 : ℤ
  s4 : ℤ
  negC4 : Bool
  b4 : ℤ
deriving DecidableEq, Repr

/-- The difficulty-4 left coefficient `a = ±(p/q)`. -/
def Rand.a4 (r : Rand) : ℚ :=
  (if r.negA4 then -1 else 1) * ((r.p4 : ℚ) / (r.q4 : ℚ))

/-- The difficulty-4 right coefficient `c = ±(r/s)` after the re-rolling
loop has terminated. -/
def Rand.c4 (r : Rand) : ℚ :=
  (if r.negC4 then -1 else 1) * ((r.r4 : ℚ) / (r.s4 : ℚ))

/-- Post-conditions the drawing code establishes: the ranges of every
`randint`, the conditions of every re-rolling `while` loop at exit, and the
range of the chosen target. -/
def Rand.Valid (r : Rand) : Prop :=
  (-10 ≤ r.x0small ∧ r.x0small ≤ 10) ∧
  (-20 ≤ r.x0large ∧ r.x0large ≤ 20) ∧
  (1 ≤ r.b1 ∧ r.b1 ≤ 10) ∧
  (-5 ≤ r.a2 ∧ r.a2 ≤ 5 ∧ r.a2 ≠ 0 ∧ r.a2 ≠ 1) ∧
  (-10 ≤ r.b2 ∧ r.b2 ≤ 10) ∧
  (-5 ≤ r.a3 ∧ r.a3 ≤ 5 ∧ r.a3 ≠ 0) ∧
  (-5 ≤ r.c3 ∧ r.c3 ≤ 5 ∧ r.c3 ≠ 0 ∧ r.c3 ≠ r.a3) ∧
  (-10 ≤ r.b3 ∧ r.b3 ≤ 10) ∧
  (1 ≤ r.p4 ∧ r.p4 ≤ 5 ∧ 1 ≤ r.q4 ∧ r.q4 ≤ 3) ∧
  (1 ≤ r.r4 ∧ r.r4 ≤ 5 ∧ 1 ≤ r.s4 ∧ r.s4 ≤ 3) ∧
  r.a4 ≠ r.c4 ∧
  (-10 ≤ r.b4 ∧ r.b4 ≤ 10)

instance (r : Rand) : Decidable r.Valid := by
  unfold Rand.Valid; infer_instance

/-- Embedding of `_choose_target_solution`: a small integer for difficulties 1-2, a larger
one for 3-4, a `ValueError` otherwise (modelled as `none`). -/
def chooseTargetSolution (difficulty : ℤ) (r : Rand) : Option ℤ :=
  if difficulty = 1 ∨ difficulty = 2 then some r.x0small
  else if difficulty = 3 ∨ difficulty = 4 then some r.x0large
  else none

/-- Embedding of `_build_difficulty_1_equation`: `x + b = c` or `x - b = c` with
`c` computed from the target `x0`. -/
def buildDifficulty1Equation (x0 b : ℤ) (plusBranch : Bool) : LinExpr × LinExpr :=
  if plusBranch then (⟨1, (b : ℚ)⟩, constLin ((x0 : ℚ) + b))
  else (⟨1, -(b : ℚ)⟩, constLin ((x0 : ℚ) - b))

/-- Embedding of `_build_difficulty_2_equation`: `a*x + b = c` with `c = a*x0 + b`. -/
def buildDifficulty2Equation (x0 a b : ℤ) : LinExpr × LinExpr :=
  (⟨(a : ℚ), (b : ℚ)⟩, constLin ((a : ℚ) * x0 + b))

/-- Embedding of `_build_difficulty_3_equation`: `a*x + b = c*x + d` with
`d = (a - c)*x0 + b` back-solved from the target. -/
def buildDifficulty3Equation (x0 a c b : ℤ) : LinExpr × LinExpr :=
  (⟨(a : ℚ), (b : ℚ)⟩, ⟨(c : ℚ), ((a : ℚ) - c) * x0 + b⟩)

/-- Embedding of `_build_difficulty_4_equation`: `a*x + b = c*x + d` with rational
`a = ±(p/q)`, `c = ±(r/s)` and `d = (a - c)*x0 + b`. -/
def buildDifficulty4Equation (x0 p q : ℤ) (negA : Bool) (rr s : ℤ) (negC : Bool)
    (b : ℤ) : LinExpr × LinExpr :=
  (⟨(if negA then -1 else 1) * ((p : ℚ) / q), (b : ℚ)⟩,
   ⟨(if negC then -1 else 1) * ((rr : ℚ) / s),
    ((if negA then -1 else 1) * ((p : ℚ) / q)
      - (if negC then -1 else 1) * ((rr : ℚ) / s)) * x0 + b⟩)

/-- Embedding of `_build_equation_for_difficulty`: dispatch on the difficulty, a
`ValueError` outside 1-4 (modelled as `none`). -/
def buildEquationForDifficulty (difficulty : ℤ) (x0 : ℤ) (r : Rand) :
    Option (LinExpr × LinExpr) :=
  if difficulty = 1 then some (buildDifficulty1Equation x0 r.b1 r.plus1)
  else if difficulty = 2 then some (buildDifficulty2Equation x0 r.a2 r.b2)
  else if difficulty = 3 then some (buildDifficulty3Equation x0 r.a3 r.c3 r.b3)
  else if difficulty = 4 then
    some (buildDifficulty4Equation x0 r.p4 r.q4 r.negA4 r.r4 r.s4 r.negC4 r.b4)
  else none

/-- The CAS solver on the linear equation `lhs = rhs`: a unique root when the
two x-coefficients differ; an identity or contradiction otherwise, for which
the solver returns the empty solution list. -/
def solveLinearEquation (lhs rhs : LinExpr) : Except String (List ℚ) :=
  if lhs.coeff = rhs.coeff then .ok []
  else .ok [(rhs.const - lhs.const) / (lhs.coeff - rhs.coeff)]

/-- The comparison `_verify_equation` performs, as a function of the outcome
of the solver call it wraps in `try/except`: an exact match against the
singleton `[expected]` yields `True`, anything else `False` with a diagnostic
message, and an exception is caught and reported, never re-raised. -/
def verifyEquationResult (res : Except String (List ℚ)) (lhs rhs : LinExpr)
    (expected : ℚ) : Bool × String :=
  match res with
  | .ok solutions =>
      if solutions = [expected] then
        (true, "Verified: " ++ latexEqn lhs rhs ++ " has solution x = "
          ++ strRat expected)
      else
        (false, "Solution mismatch: expected [" ++ strRat expected ++ "], got "
          ++ strRatList solutions)
  | .error e => (false, "Solver error: " ++ e)

/-- Embedding of `_verify_equation`: solve the equation from scratch and compare. -/
def verifyEquation (lhs rhs : LinExpr) (expected : ℚ) : Bool × String :=
  verifyEquationResult (solveLinearEquation lhs rhs) lhs rhs expected

/-- Embedding of `get_constant_term`: the constant term of an `Add`, the expression itself
when it is constant, and `None` for a bare term such as `x` or `2*x`. -/
def getConstantTerm (e : LinExpr) : Option ℚ :=
  if e.coeff ≠ 0 then
    if e.const ≠ 0 then some e.const else none
  else some e.const

/-- Embedding of `_construct_solution_steps` of the equation generator.  Each branch
threads the current equation through the conditional manipulations exactly as
the source does; the helper triples carry (current lhs, current rhs, steps so
far).  In the difficulty-2 branch the coefficient extraction
`Poly(lhs).nth(1) if lhs != x else 1` is the x-coefficient in either case.
The difficulty-4 branch of the source differs from the difficulty-3 branch
only by an `expand` call, which is the identity on this carrier. -/
def constructSolutionSteps (difficulty : ℤ) (lhs rhs : LinExpr) (x0 : ℚ) :
    List SolutionStep :=
  if difficulty = 1 then
    let s1 : List SolutionStep :=
      match getConstantTerm lhs with
      | some c =>
          if c ≠ 0 then
            [⟨0, "Subtract $" ++ latexRat c ++ "$ from both sides",
              .eq xLin (rhs.subC c)⟩]
          else []
      | none => []
    s1 ++ [⟨s1.length, "Simplify", .eq xLin (constLin x0)⟩]
  else if difficulty = 2 then
    let t1 : LinExpr × LinExpr × List SolutionStep :=
      match getConstantTerm lhs with
      | some c =>
          if c ≠ 0 then
            (lhs.subC c, rhs.subC c,
             [⟨0, "Subtract $" ++ latexRat c ++ "$ from both sides",
               .eq (lhs.subC c) (rhs.subC c)⟩])
          else (lhs, rhs, [])
      | none => (lhs, rhs, [])
    let lhs1 := t1.1
    let rhs1 := t1.2.1
    let s1 := t1.2.2
    let coeffX := lhs1.coeff
    let s2 : List SolutionStep :=
      if coeffX ≠ 0 ∧ coeffX ≠ 1 then
        [⟨s1.length, "Divide both sides by $" ++ latexRat coeffX ++ "$",
          .eq (lhs1.divC coeffX) (rhs1.divC coeffX)⟩]
      else []
    s1 ++ s2 ++ [⟨s1.length + s2.length, "Simplify", .eq xLin (constLin x0)⟩]
  else if difficulty = 3 then
    let rhsCoeff := rhs.coeff
    let rhsConst := (getConstantTerm rhs).getD 0
    let lhs1 := lhs.subX rhsCoeff
    let rhs1 := constLin rhsConst
    let s1 : List SolutionStep :=
      [⟨0, "Subtract $" ++ latexTerm rhsCoeff ++ "$ from both sides",
        .eq lhs1 rhs1⟩]
    let lhsConst := (getConstantTerm lhs1).getD 0
    let t2 : LinExpr × LinExpr × List SolutionStep :=
      if lhsConst ≠ 0 then
        (lhs1.subC lhsConst, rhs1.subC lhsConst,
         [⟨1, "Subtract $" ++ latexRat lhsConst ++ "$ from both sides",
           .eq (lhs1.subC lhsConst) (rhs1.subC lhsConst)⟩])
      else (lhs1, rhs1, [])
    let lhs2 := t2.1
    let rhs2 := t2.2.1
    let s2 := t2.2.2
    let coeffX := lhs2.coeff
    let s3 : List SolutionStep :=
      if coeffX ≠ 0 ∧ coeffX ≠ 1 then
        [⟨1 + s2.length, "Divide both sides by $" ++ latexRat coeffX ++ "$",
          .eq xLin (rhs2.divC coeffX)⟩]
      else []
    s1 ++ s2 ++ s3
      ++ [⟨1 + s2.length + s3.length, "Simplify", .eq xLin (constLin x0)⟩]
  else
    let rhsCoeff := rhs.coeff
    let rhsConst := (getConstantTerm rhs).getD 0
    let lhs1 := lhs.subX rhsCoeff
    let rhs1 := constLin rhsConst
    let s1 : List SolutionStep :=
      [⟨0, "Subtract $" ++ latexTerm rhsCoeff ++ "$ from both sides",
        .eq lhs1 rhs1⟩]
    let lhsConst := (getConstantTerm lhs1).getD 0
    let t2 : LinExpr × LinExpr × List SolutionStep :=
      if lhsConst ≠ 0 then
        (lhs1.subC lhsConst, rhs1.subC lhsConst,
         [⟨1, "Subtract $" ++ latexRat lhsConst ++ "$ from both sides",
           .eq (lhs1.subC lhsConst) (rhs1.subC lhsConst)⟩])
      else (lhs1, rhs1, [])
    let lhs2 := t2.1
    let rhs2 := t2.2.1
    let s2 := t2.2.2
    let coeffX := lhs2.coeff
    let s3 : List SolutionStep :=
      if coeffX ≠ 0 ∧ coeffX ≠ 1 then
        [⟨1 + s2.length, "Divide both sides by $" ++ latexRat coeffX ++ "$",
          .eq xLin (rhs2.divC coeffX)⟩]
      else []
    s1 ++ s2 ++ s3
      ++ [⟨1 + s2.length + s3.length, "Simplify", .eq xLin (constLin x0)⟩]

/-- The fields of the output `Problem` artifact that the engine computes
(the uuid identifier and the fixed course/unit/topic labels aside). -/
structure Problem where
  difficulty : ℤ
  lhs : LinExpr
  rhs : LinExpr
  steps : List SolutionStep
  finalAnswer : ℚ
  sympyVerified : Bool
  verificationDetails : String
  primaryConceptId : String
deriving DecidableEq, Repr

/-- The difficulty-to-concept lookup table (`concept_map`); a missing key is a
`KeyError`, modelled as `none`. -/
def conceptMap (difficulty : ℤ) : Option String :=
  if difficulty = 1 then some "alg1.linear_eq.one_step_int"
  else if difficulty = 2 then some "alg1.linear_eq.two_step_int"
  else if difficulty = 3 then some "alg1.linear_eq.multistep_one_side"
  else if difficulty = 4 then some "alg1.linear_eq.both_sides"
  else none

/-- Embedding of `generate_linear_equation_problem`: validate the difficulty, choose the
target, build, verify, synthesize steps, and assemble; every raised exception
becomes an `error` carrying the message the source formats. -/
def generateLinearEquationProblem (difficulty : ℤ) (r : Rand) :
    Except String Problem :=
  if ¬(difficulty = 1 ∨ difficulty = 2 ∨ difficulty = 3 ∨ difficulty = 4) then
    .error ("Invalid difficulty: " ++ toString difficulty ++ ". Must be 1-4.")
  else
    match chooseTargetSolution difficulty r with
    | none =>
        .error ("Invalid difficulty: " ++ toString difficulty ++ ". Must be 1-4.")
    | some x0 =>
      match buildEquationForDifficulty difficulty x0 r with
      | none =>
          .error ("Invalid difficulty: " ++ toString difficulty ++ ". Must be 1-4.")
      | some (lhs, rhs) =>
        let v := verifyEquation lhs rhs (x0 : ℚ)
        if ¬ v.1 then .error ("Equation verification failed: " ++ v.2)
        else
          let steps := constructSolutionSteps difficulty lhs rhs (x0 : ℚ)
          match conceptMap difficulty with
          | none => .error ("KeyError: " ++ toString difficulty)
          | some cid =>
              .ok ⟨difficulty, lhs, rhs, steps, (x0 : ℚ), v.1, v.2, cid⟩

end EqGen

/-! ### The inequality generator (`generator_inequalities_impl.py`) -/

namespace IneqGen

/-- The random draws a single inequality-generation call can consume:
the operator chosen by `_choose_target_solution`, and the coefficient,
constant and target `randint` draws of each difficulty builder. -/
structure Rand where
  op : RelOp
  t1 : ℤ
  coeffBranch2 : Bool
  coeff2 : ℤ
  t2a : ℤ
  const2 : ℤ
  t2b : ℤ
  coeff3 : ℤ
  const3 : ℤ
  t3 : ℤ
  coeff4 : ℤ
  const4 : ℤ
  t4 : ℤ
deriving DecidableEq, Repr

/-- Post-conditions of the draws: the `randint` ranges of every builder,
including the two-sided choice of the difficulty-4 coefficient. -/
def Rand.Valid (r : Rand) : Prop :=
  (-10 ≤ r.t1 ∧ r.t1 ≤ 10) ∧
  (2 ≤ r.coeff2 ∧ r.coeff2 ≤ 5) ∧
  (-20 ≤ r.t2a ∧ r.t2a ≤ 20) ∧
  (-10 ≤ r.const2 ∧ r.const2 ≤ 10) ∧
  (-10 ≤ r.t2b ∧ r.t2b ≤ 10) ∧
  (2 ≤ r.coeff3 ∧ r.coeff3 ≤ 7) ∧
  (-10 ≤ r.const3 ∧ r.const3 ≤ 10) ∧
  (-20 ≤ r.t3 ∧ r.t3 ≤ 20) ∧
  ((-10 ≤ r.coeff4 ∧ r.coeff4 ≤ -2) ∨ (2 ≤ r.coeff4 ∧ r.coeff4 ≤ 10)) ∧
  (-20 ≤ r.const4 ∧ r.const4 ≤ 20) ∧
  (-30 ≤ r.t4 ∧ r.t4 ≤ 30)

instance (r : Rand) : Decidable r.Valid := by
  unfold Rand.Valid; infer_instance

/-- Embedding of `_build_difficulty_1_inequality`: `x op target`. -/
def buildDifficulty1Inequality (r : Rand) : InequalityProblem :=
  ⟨⟨1, 0⟩, r.op, (r.t1 : ℚ)⟩

/-- Embedding of `_build_difficulty_2_inequality`: `coeff*x op target` or
`x + const op target`. -/
def buildDifficulty2Inequality (r : Rand) : InequalityProblem :=
  if r.coeffBranch2 then ⟨⟨(r.coeff2 : ℚ), 0⟩, r.op, (r.t2a : ℚ)⟩
  else ⟨⟨1, (r.const2 : ℚ)⟩, r.op, (r.t2b : ℚ)⟩

/-- Embedding of `_build_difficulty_3_inequality`: `coeff*x + const op target` with a
positive coefficient. -/
def buildDifficulty3Inequality (r : Rand) : InequalityProblem :=
  ⟨⟨(r.coeff3 : ℚ), (r.const3 : ℚ)⟩, r.op, (r.t3 : ℚ)⟩

/-- Embedding of `_build_difficulty_4_inequality`: `coeff*x + const op target` where the
coefficient may be negative. -/
def buildDifficulty4Inequality (r : Rand) : InequalityProblem :=
  ⟨⟨(r.coeff4 : ℚ), (r.const4 : ℚ)⟩, r.op, (r.t4 : ℚ)⟩

/-- The dispatch on difficulty inside `generate_linear_inequality_problem`
(the final `else` catches difficulty 4, the guard having run already). -/
def buildInequalityForDifficulty (difficulty : ℤ) (r : Rand) : InequalityProblem :=
  if difficulty = 1 then buildDifficulty1Inequality r
  else if difficulty = 2 then buildDifficulty2Inequality r
  else if difficulty = 3 then buildDifficulty3Inequality r
  else buildDifficulty4Inequality r

/-- The CAS call `solve_univariate_inequality(left op right, x,
relational=False)` on a linear left-hand side: a ray bounded by
`(right - const) / coeff`, in the direction of the stated operator for a
positive coefficient and of the flipped operator for a negative one.  With a
zero coefficient the relation contains no symbol and the CAS raises, modelled
as `error`. -/
def solveUnivariateInequality (left : LinExpr) (op : RelOp) (right : ℚ) :
    Except String SolSet :=
  if left.coeff = 0 then .error "inequality has no symbol of interest"
  else if 0 < left.coeff then .ok (rayOfOp op ((right - left.const) / left.coeff))
  else .ok (rayOfOp op.flip ((right - left.const) / left.coeff))

/-- Embedding of `_verify_inequality`: sympify both sides, solve, and report success with
the printed solution set; any exception is caught and reported as `False`.
No intended target is consulted - the function receives none. -/
def verifyInequality (p : InequalityProblem) : Bool × String :=
  match solveUnivariateInequality p.left p.op p.right with
  | .ok s => (true, strSolSet s)
  | .error e => (false, "Error verifying inequality: " ++ e)

/-- Embedding of `_construct_solution_steps` of the inequality generator: one step stating
the given inequality, then one step stating the solved set; the solver
exception, were it to occur here, would propagate out of the function. -/
def constructSolutionSteps (p : InequalityProblem) :
    Except String (List SolutionStep) :=
  match solveUnivariateInequality p.left p.op p.right with
  | .ok s =>
      .ok [⟨1, "Given inequality", .ineq p⟩,
           ⟨2, "Solve for x", .solset s⟩]
  | .error e => .error e

/-- The output artifact fields of the inequality pipeline (identifier and
fixed labels aside); the final answer is the printed solution set. -/
structure Problem where
  difficulty : ℤ
  spec : InequalityProblem
  steps : List SolutionStep
  finalAnswer : String
  sympyVerified : Bool
  verificationDetails : String
  primaryConceptId : String
deriving DecidableEq, Repr

/-- The difficulty-to-concept lookup table of the inequality generator. -/
def conceptMap (difficulty : ℤ) : Option String :=
  if difficulty = 1 then some "alg1.linear_ineq.one_step_int"
  else if difficulty = 2 then some "alg1.linear_ineq.two_step_int"
  else if difficulty = 3 then some "alg1.linear_ineq.negative_coeff_reverse"
  else if difficulty = 4 then some "alg1.linear_ineq.rational_coeffs"
  else none

/-- Embedding of `generate_linear_inequality_problem`: validate the difficulty, build,
verify, re-solve for the final answer, synthesize the two steps, and
assemble. -/
def generateLinearInequalityProblem (difficulty : ℤ) (r : Rand) :
    Except String Problem :=
  if ¬(1 ≤ difficulty ∧ difficulty ≤ 4) then
    .error ("Difficulty must be 1-4, got " ++ toString difficulty)
  else
    let p := buildInequalityForDifficulty difficulty r
    let v := verifyInequality p
    if ¬ v.1 then .error ("Generated invalid inequality: " ++ v.2)
    else
      match solveUnivariateInequality p.left p.op p.right with
      | .error e => .error e
      | .ok solutionSet =>
        match constructSolutionSteps p with
        | .error e => .error e
        | .ok steps =>
          match conceptMap difficulty with
          | none => .error ("KeyError: " ++ toString difficulty)
          | some cid =>
              .ok ⟨difficulty, p, steps, strSolSet solutionSet, v.1, v.2, cid⟩

end IneqGen

/-! ### Statement-side notions taken from the specification text -/

/-- Modelled from the spec: the target is interior to, or on the boundary of,
a solution-set ray (membership in the topological closure of the ray). -/
def specMemOrBoundary (t : ℚ) : SolSet → Prop
  | .lt b => t ≤ b
  | .le b => t ≤ b
  | .gt b => b ≤ t
  | .ge b => b ≤ t

instance (t : ℚ) (s : SolSet) : Decidable (specMemOrBoundary t s) := by
  cases s <;> (unfold specMemOrBoundary; infer_instance)

/-! ### Helper lemmas -/

theorem lastOfAppendSingleton {α : Type} (l : List α) (a : α) :
    (l ++ [a]).getLast? = some a := by
  rw [List.getLast?_append_of_ne_nil l (by simp)]
  rfl

theorem getConstantTerm_getD (e : LinExpr) :
    (EqGen.getConstantTerm e).getD 0 = e.const := by
  unfold EqGen.getConstantTerm
  split_ifs with h1 h2
  · rfl
  · simp only [Option.getD_none]
    exact (not_not.mp h2).symm
  · rfl

theorem solveLinearEquation_of_target (lhs rhs : LinExpr) (x0 : ℚ)
    (hc : lhs.coeff ≠ rhs.coeff) (hx : lhs.eval x0 = rhs.eval x0) :
    EqGen.solveLinearEquation lhs rhs = .ok [x0] := by
  unfold EqGen.solveLinearEquation
  rw [if_neg hc]
  unfold LinExpr.eval at hx
  refine congrArg (fun v => Except.ok [v]) ?_
  rw [div_eq_iff (sub_ne_zero.mpr hc)]
  linear_combination -hx

theorem verifyEquation_fst_true (lhs rhs : LinExpr) (x0 : ℚ)
    (hc : lhs.coeff ≠ rhs.coeff) (hx : lhs.eval x0 = rhs.eval x0) :
    (EqGen.verifyEquation lhs rhs x0).1 = true := by
  unfold EqGen.verifyEquation EqGen.verifyEquationResult
  rw [solveLinearEquation_of_target lhs rhs x0 hc hx]
  simp

theorem solveUnivariateInequality_ok (p : InequalityProblem)
    (h : p.left.coeff ≠ 0) :
    ∃ s, IneqGen.solveUnivariateInequality p.left p.op p.right = .ok s := by
  unfold IneqGen.solveUnivariateInequality
  rw [if_neg h]
  by_cases h2 : 0 < p.left.coeff
  · rw [if_pos h2]; exact ⟨_, rfl⟩
  · rw [if_neg h2]; exact ⟨_, rfl⟩

theorem ineqSteps_of_coeff_ne (p : InequalityProblem) (h : p.left.coeff ≠ 0) :
    ∃ s, IneqGen.solveUnivariateInequality p.left p.op p.right = .ok s ∧
      IneqGen.constructSolutionSteps p =
        .ok [⟨1, "Given inequality", .ineq p⟩, ⟨2, "Solve for x", .solset s⟩] := by
  obtain ⟨s, hs⟩ := solveUnivariateInequality_ok p h
  refine ⟨s, hs, ?_⟩
  unfold IneqGen.constructSolutionSteps
  rw [hs]

/-! ### Claim C1 -/

/-- Claim C1: for every difficulty tier in 1-4 and every integer target, the
equation specification (lhs, rhs) returned by the constructor satisfies the
target by construction: substituting the target for the variable x makes the
left-hand side expression equal the right-hand side expression. -/
theorem eqConstructor_satisfies_target (difficulty : ℤ) (x0 : ℤ)
    (r : EqGen.Rand) (hv : r.Valid) (res : LinExpr × LinExpr)
    (hb : EqGen.buildEquationForDifficulty difficulty x0 r = some res) :
    res.1.eval (x0 : ℚ) = res.2.eval (x0 : ℚ) := by
  unfold EqGen.buildEquationForDifficulty at hb
  split_ifs at hb
  · rw [Option.some_inj] at hb
    subst hb
    unfold EqGen.buildDifficulty1Equation
    split_ifs <;>
      (simp only [LinExpr.eval, constLin]; try push_cast; try ring)
  · rw [Option.some_inj] at hb
    subst hb
    simp only [EqGen.buildDifficulty2Equation, LinExpr.eval, constLin]
    try push_cast
    try ring
  · rw [Option.some_inj] at hb
    subst hb
    simp only [EqGen.buildDifficulty3Equation, LinExpr.eval]
    try push_cast
    try ring
  · rw [Option.some_inj] at hb
    subst hb
    simp only [EqGen.buildDifficulty4Equation, LinExpr.eval]
    try push_cast
    try ring

/-- A draw record whose fields satisfy every range and loop post-condition. -/
def sampleEqRand : EqGen.Rand :=
  ⟨5, 7, 3, true, 2, 1, 3, -1, 4, 1, 2, false, 1, 3, false, 0⟩

theorem eqConstructor_satisfies_target_witness :
    sampleEqRand.Valid ∧
    EqGen.buildEquationForDifficulty 3 7 sampleEqRand =
      some (EqGen.buildDifficulty3Equation 7 3 (-1) 4) ∧
    (EqGen.buildDifficulty3Equation 7 3 (-1) 4).1.eval ((7 : ℤ) : ℚ) =
      (EqGen.buildDifficulty3Equation 7 3 (-1) 4).2.eval ((7 : ℤ) : ℚ) := by
  have hv : sampleEqRand.Valid := by
    norm_num [sampleEqRand, EqGen.Rand.Valid, EqGen.Rand.a4, EqGen.Rand.c4]
  have hb : EqGen.buildEquationForDifficulty 3 7 sampleEqRand =
      some (EqGen.buildDifficulty3Equation 7 3 (-1) 4) := by
    norm_num [EqGen.buildEquationForDifficulty, sampleEqRand]
  exact ⟨hv, hb, eqConstructor_satisfies_target 3 7 sampleEqRand hv _ hb⟩

/-! ### Claim C2 -/

/-- Claim C2: for every equation specification (lhs, rhs) and intended
target, the equation verifier returns verified = True if and only if the
solution set of the CAS solver equals exactly the singleton list containing
the target; any solver exception is surfaced as verified = False together with a
diagnostic explanation string, never propagated and never coerced to a near
match. -/
theorem verifyEquation_iff_singleton (res : Except String (List ℚ))
    (lhs rhs : LinExpr) (target : ℚ) :
    ((EqGen.verifyEquationResult res lhs rhs target).1 = true ↔
      res = .ok [target]) ∧
    (∀ e : String, EqGen.verifyEquationResult (.error e) lhs rhs target =
      (false, "Solver error: " ++ e)) := by
  refine ⟨?_, fun e => rfl⟩
  cases res with
  | ok sols =>
      by_cases h : sols = [target] <;>
        simp [EqGen.verifyEquationResult, h]
  | error e => simp [EqGen.verifyEquationResult]

theorem verifyEquation_iff_singleton_witness :
    EqGen.verifyEquationResult (.error "solver blew up") xLin (constLin 0) 5 =
      (false, "Solver error: solver blew up") :=
  (verifyEquation_iff_singleton (.error "solver blew up") xLin (constLin 0) 5).2
    "solver blew up"

/-! ### Claim C5 -/

/-- Claim C5: for every difficulty tier and every equation specification, the
step synthesizer returns a non-empty ordered sequence of solution steps, and
the expression of the final step states that the variable equals the target
(x = target). -/
theorem eqSteps_nonempty_final_target (difficulty : ℤ) (lhs rhs : LinExpr)
    (x0 : ℚ) :
    EqGen.constructSolutionSteps difficulty lhs rhs x0 ≠ [] ∧
    ∃ n : ℤ, (EqGen.constructSolutionSteps difficulty lhs rhs x0).getLast? =
      some ⟨n, "Simplify", .eq xLin (constLin x0)⟩ := by
  unfold EqGen.constructSolutionSteps
  split_ifs <;>
    exact ⟨by simp, _, lastOfAppendSingleton _ _⟩

/-! ### Claim C9 -/

/-- Claim C9: for tier 1 with target 5, when the random draws give b = 3 and
the "x + b = c" branch, the constructor yields the specification x + 3 = 8,
the verifier returns verified = True, and the synthesized steps are exactly:
"Subtract 3 from both sides" with resulting expression x = 5, then "Simplify"
with resulting expression x = 5. -/
theorem concreteScenarioTier1 :
    EqGen.buildDifficulty1Equation 5 3 true = (⟨1, 3⟩, ⟨0, 8⟩) ∧
    (EqGen.verifyEquation ⟨1, 3⟩ ⟨0, 8⟩ 5).1 = true ∧
    EqGen.constructSolutionSteps 1 ⟨1, 3⟩ ⟨0, 8⟩ 5 =
      [⟨0, "Subtract $3$ from both sides", .eq xLin (constLin 5)⟩,
       ⟨1, "Simplify", .eq xLin (constLin 5)⟩] := by
  refine ⟨?_, ?_, ?_⟩
  · simp only [EqGen.buildDifficulty1Equation, if_pos, constLin]
    norm_num
  · simp [EqGen.verifyEquation, EqGen.verifyEquationResult,
      EqGen.solveLinearEquation]
    norm_num
  · simp [EqGen.constructSolutionSteps, EqGen.getConstantTerm, LinExpr.subC,
      xLin, constLin]
    norm_num
    rfl

/-! ### Claim C6 -/

/-- Claim C6 counterexample: the tier-3 draws a = 2, c = 1, b = 0 (all in
range, a and c nonzero and distinct) with target 5 produce the specification
2x = x + 5, whose synthesized derivation has exactly 2 steps, not 3 or 4:
the constant-moving step and the division step are both skipped. -/
theorem tier3Steps_count_counterexample :
    EqGen.buildDifficulty3Equation 5 2 1 0 = (⟨2, 0⟩, ⟨1, 5⟩) ∧
    (EqGen.constructSolutionSteps 3 ⟨2, 0⟩ ⟨1, 5⟩ 5).length = 2 ∧
    ¬((EqGen.constructSolutionSteps 3 ⟨2, 0⟩ ⟨1, 5⟩ 5).length = 3 ∨
      (EqGen.constructSolutionSteps 3 ⟨2, 0⟩ ⟨1, 5⟩ 5).length = 4) := by
  have h2 : (EqGen.constructSolutionSteps 3 ⟨2, 0⟩ ⟨1, 5⟩ 5).length = 2 := by
    norm_num [EqGen.constructSolutionSteps, EqGen.getConstantTerm, LinExpr.subC,
      LinExpr.subX, xLin, constLin]
  refine ⟨?_, h2, ?_⟩
  · simp [EqGen.buildDifficulty3Equation]
    norm_num
  · rw [h2]
    norm_num

/-- Claim C6 as amended: for every tier-3 specification produced by the
constructor, the derivation has between 2 and 4 steps, in the fixed order:
always first subtract the right-hand variable term, then subtract the
constants when the left constant is nonzero, then divide by the remaining
coefficient when it differs from 1, then state the simplified answer. -/
theorem tier3Steps_order_count (x0 a c b : ℤ) (ha : a ≠ 0) (hc : c ≠ 0)
    (hca : c ≠ a) :
    (EqGen.constructSolutionSteps 3 (EqGen.buildDifficulty3Equation x0 a c b).1
        (EqGen.buildDifficulty3Equation x0 a c b).2 (x0 : ℚ)).map
      SolutionStep.description =
      ["Subtract $" ++ latexTerm (c : ℚ) ++ "$ from both sides"]
        ++ (if b = 0 then [] else
            ["Subtract $" ++ latexRat (b : ℚ) ++ "$ from both sides"])
        ++ (if a - c = 1 then [] else
            ["Divide both sides by $" ++ latexRat ((a : ℚ) - (c : ℚ)) ++ "$"])
        ++ ["Simplify"] ∧
    2 ≤ (EqGen.constructSolutionSteps 3 (EqGen.buildDifficulty3Equation x0 a c b).1
        (EqGen.buildDifficulty3Equation x0 a c b).2 (x0 : ℚ)).length ∧
    (EqGen.constructSolutionSteps 3 (EqGen.buildDifficulty3Equation x0 a c b).1
        (EqGen.buildDifficulty3Equation x0 a c b).2 (x0 : ℚ)).length ≤ 4 := by
  have hac : (a : ℚ) - (c : ℚ) ≠ 0 := by
    rw [sub_ne_zero]
    exact_mod_cast (Ne.symm hca)
  have hb0 : ((b : ℚ) = 0) ↔ (b = 0) := by
    exact_mod_cast Iff.rfl
  have hd1 : ((a : ℚ) - (c : ℚ) = 1) ↔ (a - c = 1) := by
    rw [show ((a : ℚ) - (c : ℚ)) = ((a - c : ℤ) : ℚ) by push_cast; ring]
    exact_mod_cast Iff.rfl
  simp only [EqGen.constructSolutionSteps, EqGen.buildDifficulty3Equation]
  norm_num only
  rw [getConstantTerm_getD, getConstantTerm_getD]
  simp only [LinExpr.subX, LinExpr.subC, LinExpr.divC, constLin]
  by_cases hb : b = 0 <;> by_cases hd : a - c = 1 <;>
    simp [hb, hd, hb0, hd1, hac]

theorem tier3Steps_order_count_witness :
    (3 : ℤ) ≠ 0 ∧ (-1 : ℤ) ≠ 0 ∧ (-1 : ℤ) ≠ 3 ∧
    ((EqGen.constructSolutionSteps 3 (EqGen.buildDifficulty3Equation 2 3 (-1) 4).1
        (EqGen.buildDifficulty3Equation 2 3 (-1) 4).2 ((2 : ℤ) : ℚ)).map
      SolutionStep.description =
      ["Subtract $" ++ latexTerm ((-1 : ℤ) : ℚ) ++ "$ from both sides"]
        ++ (if (4 : ℤ) = 0 then [] else
            ["Subtract $" ++ latexRat ((4 : ℤ) : ℚ) ++ "$ from both sides"])
        ++ (if (3 : ℤ) - (-1 : ℤ) = 1 then [] else
            ["Divide both sides by $"
              ++ latexRat (((3 : ℤ) : ℚ) - ((-1 : ℤ) : ℚ)) ++ "$"])
        ++ ["Simplify"] ∧
      2 ≤ (EqGen.constructSolutionSteps 3 (EqGen.buildDifficulty3Equation 2 3 (-1) 4).1
        (EqGen.buildDifficulty3Equation 2 3 (-1) 4).2 ((2 : ℤ) : ℚ)).length ∧
      (EqGen.constructSolutionSteps 3 (EqGen.buildDifficulty3Equation 2 3 (-1) 4).1
        (EqGen.buildDifficulty3Equation 2 3 (-1) 4).2 ((2 : ℤ) : ℚ)).length ≤ 4) :=
  ⟨by decide, by decide, by decide,
   tier3Steps_order_count 2 3 (-1) 4 (by decide) (by decide) (by decide)⟩

/-! ### Claim C8 -/

/-- Claim C8 counterexample: the tier-4 draws p = 1, q = 2 (a = 1/2, kept
positive), r = 1, s = 3 (c = 1/3, kept positive, already distinct from a, so
the re-rolling loop never runs), b = 0 and target 1 produce the back-solved
right constant d = (1/2 - 1/3)*1 + 0 = 1/6, which is not an integer. -/
theorem tier4_d_not_integer_counterexample :
    EqGen.buildDifficulty4Equation 1 1 2 false 1 3 false 0 =
      (⟨1/2, 0⟩, ⟨1/3, 1/6⟩) ∧
    (1/2 : ℚ) ≠ (1/3 : ℚ) ∧
    ((EqGen.buildDifficulty4Equation 1 1 2 false 1 3 false 0).2.const).den ≠ 1 := by
  have hbuild : EqGen.buildDifficulty4Equation 1 1 2 false 1 3 false 0 =
      (⟨1/2, 0⟩, ⟨1/3, 1/6⟩) := by
    simp [EqGen.buildDifficulty4Equation]
    norm_num
  refine ⟨hbuild, by norm_num, ?_⟩
  rw [hbuild]
  norm_num

/-- Claim C8 as amended: for every integer target and every in-range tier-4
draw, the constructor produces a*x + b = c*x + d with a and c rationals,
a distinct from c, b the drawn integer, and d the rational
(a - c) * target + b, which need not be an integer. -/
theorem tier4_shape (x0 p q : ℤ) (negA : Bool) (rr s : ℤ) (negC : Bool)
    (b : ℤ) (hp : 1 ≤ p ∧ p ≤ 5) (hq : 1 ≤ q ∧ q ≤ 3)
    (hr : 1 ≤ rr ∧ rr ≤ 5) (hs : 1 ≤ s ∧ s ≤ 3) (hb : -10 ≤ b ∧ b ≤ 10)
    (hac : (if negA then -1 else 1) * ((p : ℚ) / q) ≠
      (if negC then -1 else 1) * ((rr : ℚ) / s)) :
    (EqGen.buildDifficulty4Equation x0 p q negA rr s negC b).1.coeff ≠
      (EqGen.buildDifficulty4Equation x0 p q negA rr s negC b).2.coeff ∧
    (EqGen.buildDifficulty4Equation x0 p q negA rr s negC b).1.const = (b : ℚ) ∧
    (EqGen.buildDifficulty4Equation x0 p q negA rr s negC b).2.const =
      ((EqGen.buildDifficulty4Equation x0 p q negA rr s negC b).1.coeff -
        (EqGen.buildDifficulty4Equation x0 p q negA rr s negC b).2.coeff)
        * (x0 : ℚ) + (b : ℚ) := by
  unfold EqGen.buildDifficulty4Equation
  exact ⟨hac, rfl, rfl⟩

theorem tier4_shape_witness :
    ((1 : ℤ) ≤ 2 ∧ (2 : ℤ) ≤ 5) ∧ ((1 : ℤ) ≤ 1 ∧ (1 : ℤ) ≤ 3) ∧
    ((1 : ℤ) ≤ 1 ∧ (1 : ℤ) ≤ 5) ∧ ((1 : ℤ) ≤ 2 ∧ (2 : ℤ) ≤ 3) ∧
    ((-10 : ℤ) ≤ 7 ∧ (7 : ℤ) ≤ 10) ∧
    (if true then -1 else 1) * ((2 : ℚ) / 1) ≠
      (if false then -1 else 1) * ((1 : ℚ) / 2) ∧
    ((EqGen.buildDifficulty4Equation 3 2 1 true 1 2 false 7).1.coeff ≠
      (EqGen.buildDifficulty4Equation 3 2 1 true 1 2 false 7).2.coeff ∧
    (EqGen.buildDifficulty4Equation 3 2 1 true 1 2 false 7).1.const = ((7 : ℤ) : ℚ) ∧
    (EqGen.buildDifficulty4Equation 3 2 1 true 1 2 false 7).2.const =
      ((EqGen.buildDifficulty4Equation 3 2 1 true 1 2 false 7).1.coeff -
        (EqGen.buildDifficulty4Equation 3 2 1 true 1 2 false 7).2.coeff)
        * ((3 : ℤ) : ℚ) + ((7 : ℤ) : ℚ)) := by
  have hne : (if true then -1 else 1) * ((2 : ℚ) / 1) ≠
      (if false then -1 else 1) * ((1 : ℚ) / 2) := by norm_num
  exact ⟨by norm_num, by norm_num, by norm_num, by norm_num, by norm_num, hne,
    tier4_shape 3 2 1 true 1 2 false 7 (by norm_num) (by norm_num)
      (by norm_num) (by norm_num) (by norm_num) hne⟩

/-! ### Claim C4 -/

/-- Claim C4 counterexample: the tier-3-shaped inequality 2x + 3 < 5 (drawn
coefficient 2, constant 3, target 5) is verified as True, yet its target 5 is
neither interior to nor on the boundary of the solved set
Interval.open(-oo, 1): the verifier performs no membership check and receives
no target at all. -/
theorem verifyInequality_counterexample :
    (IneqGen.verifyInequality ⟨⟨2, 3⟩, RelOp.lt, 5⟩).1 = true ∧
    IneqGen.solveUnivariateInequality ⟨2, 3⟩ RelOp.lt 5 = .ok (SolSet.lt 1) ∧
    ¬ specMemOrBoundary 5 (SolSet.lt 1) := by
  have hsolve : IneqGen.solveUnivariateInequality ⟨2, 3⟩ RelOp.lt 5 =
      .ok (SolSet.lt 1) := by
    simp [IneqGen.solveUnivariateInequality, rayOfOp]
    norm_num
  refine ⟨?_, hsolve, ?_⟩
  · unfold IneqGen.verifyInequality
    rw [hsolve]
  · simp [specMemOrBoundary]

/-- Claim C4 as amended: the inequality verifier consults no target; it
returns verified = True exactly when the CAS solve of the specification
succeeds, which for these linear specifications means the left x-coefficient
is nonzero. -/
theorem verifyInequality_iff_solvable (p : InequalityProblem) :
    (IneqGen.verifyInequality p).1 = true ↔ p.left.coeff ≠ 0 := by
  unfold IneqGen.verifyInequality IneqGen.solveUnivariateInequality
  by_cases h : p.left.coeff = 0
  · simp [h]
  · rw [if_neg h]
    by_cases h2 : 0 < p.left.coeff <;> simp [h2, h]

theorem verifyInequality_iff_solvable_witness :
    (IneqGen.verifyInequality ⟨⟨3, 1⟩, RelOp.ge, 7⟩).1 = true :=
  (verifyInequality_iff_solvable ⟨⟨3, 1⟩, RelOp.ge, 7⟩).mpr (by norm_num)

/-! ### Claim C3 -/

/-- Claim C3 counterexample: the tier-4 draws coefficient -2, constant 3,
operator <, target 5 (all in range, negative isolating coefficient) produce
the inequality -2x + 3 < 5, whose synthesized step sequence is exactly the
two steps "Given inequality" and "Solve for x": it contains no
division/multiplication step and no step stating that the inequality
direction is reversed. -/
theorem ineqSteps_flip_counterexample :
    (IneqGen.buildDifficulty4Inequality
      ⟨RelOp.lt, 0, true, 2, 0, 0, 0, 2, 0, 0, -2, 3, 5⟩).left.coeff < 0 ∧
    IneqGen.constructSolutionSteps
      (IneqGen.buildDifficulty4Inequality
        ⟨RelOp.lt, 0, true, 2, 0, 0, 0, 2, 0, 0, -2, 3, 5⟩) =
      .ok [⟨1, "Given inequality", .ineq ⟨⟨-2, 3⟩, RelOp.lt, 5⟩⟩,
           ⟨2, "Solve for x", .solset (SolSet.gt (-1))⟩] := by
  have hbuild : IneqGen.buildDifficulty4Inequality
      ⟨RelOp.lt, 0, true, 2, 0, 0, 0, 2, 0, 0, -2, 3, 5⟩ =
      ⟨⟨-2, 3⟩, RelOp.lt, 5⟩ := by
    simp [IneqGen.buildDifficulty4Inequality]
  rw [hbuild]
  constructor
  · norm_num
  · simp [IneqGen.constructSolutionSteps, IneqGen.solveUnivariateInequality,
      rayOfOp, RelOp.flip]
    norm_num

/-- Claim C3 as amended: for every inequality specification whose isolating
coefficient is negative, the synthesized step sequence contains no explicit
division/multiplication step and no explicit direction-reversal step; it is
exactly the restated inequality followed by the CAS solution set, and the
reversal happens only inside that final set, whose ray runs in the direction
of the flipped operator. -/
theorem ineqSteps_no_flip_step (p : InequalityProblem)
    (hneg : p.left.coeff < 0) :
    IneqGen.constructSolutionSteps p =
      .ok [⟨1, "Given inequality", .ineq p⟩,
           ⟨2, "Solve for x",
            .solset (rayOfOp p.op.flip ((p.right - p.left.const) / p.left.coeff))⟩] := by
  unfold IneqGen.constructSolutionSteps IneqGen.solveUnivariateInequality
  rw [if_neg (ne_of_lt hneg), if_neg (not_lt.mpr (le_of_lt hneg))]

theorem ineqSteps_no_flip_step_witness :
    ((⟨⟨-4, 2⟩, RelOp.ge, 6⟩ : InequalityProblem).left.coeff < 0) ∧
    IneqGen.constructSolutionSteps ⟨⟨-4, 2⟩, RelOp.ge, 6⟩ =
      .ok [⟨1, "Given inequality", .ineq ⟨⟨-4, 2⟩, RelOp.ge, 6⟩⟩,
           ⟨2, "Solve for x",
            .solset (rayOfOp (RelOp.ge).flip
              ((6 - (⟨⟨-4, 2⟩, RelOp.ge, 6⟩ : InequalityProblem).left.const) /
                (⟨⟨-4, 2⟩, RelOp.ge, 6⟩ : InequalityProblem).left.coeff))⟩] :=
  ⟨by norm_num, ineqSteps_no_flip_step ⟨⟨-4, 2⟩, RelOp.ge, 6⟩ (by norm_num)⟩

/-! ### Claim C10 -/

theorem buildIneq_coeff_ne (difficulty : ℤ) (r : IneqGen.Rand)
    (h1 : 1 ≤ difficulty) (h4 : difficulty ≤ 4) (hv : r.Valid) :
    (IneqGen.buildInequalityForDifficulty difficulty r).left.coeff ≠ 0 := by
  obtain ⟨ht1, hc2, ht2a, hcst2, ht2b, hc3, hcst3, ht3, hc4, hcst4, ht4⟩ := hv
  interval_cases difficulty
  · norm_num [IneqGen.buildInequalityForDifficulty,
      IneqGen.buildDifficulty1Inequality]
  · cases hbr : r.coeffBranch2 <;>
      norm_num [IneqGen.buildInequalityForDifficulty,
        IneqGen.buildDifficulty2Inequality, hbr]
    exact_mod_cast (by omega : r.coeff2 ≠ 0)
  · norm_num [IneqGen.buildInequalityForDifficulty,
      IneqGen.buildDifficulty3Inequality]
    exact_mod_cast (by omega : r.coeff3 ≠ 0)
  · norm_num [IneqGen.buildInequalityForDifficulty,
      IneqGen.buildDifficulty4Inequality]
    exact_mod_cast (by omega : r.coeff4 ≠ 0)

/-- Claim C10: for every difficulty 1-4 and every random draw, the inequality
step synthesizer returns exactly two steps: one restating the given
inequality and one stating the CAS-computed solution set, with no
intermediate algebraic-manipulation steps between them. -/
theorem ineqSteps_exactly_two (difficulty : ℤ) (r : IneqGen.Rand)
    (h1 : 1 ≤ difficulty) (h4 : difficulty ≤ 4) (hv : r.Valid) :
    ∃ s : SolSet,
      IneqGen.constructSolutionSteps
        (IneqGen.buildInequalityForDifficulty difficulty r) =
      .ok [⟨1, "Given inequality",
            .ineq (IneqGen.buildInequalityForDifficulty difficulty r)⟩,
           ⟨2, "Solve for x", .solset s⟩] := by
  obtain ⟨s, -, hsteps⟩ :=
    ineqSteps_of_coeff_ne _ (buildIneq_coeff_ne difficulty r h1 h4 hv)
  exact ⟨s, hsteps⟩

/-- A draw record for the inequality generator with every field in range. -/
def sampleIneqRand : IneqGen.Rand :=
  ⟨RelOp.le, 4, true, 3, 6, 2, 1, 5, -3, 8, -7, 10, 12⟩

theorem ineqSteps_exactly_two_witness :
    (1 : ℤ) ≤ 2 ∧ (2 : ℤ) ≤ 4 ∧ sampleIneqRand.Valid ∧
    ∃ s : SolSet,
      IneqGen.constructSolutionSteps
        (IneqGen.buildInequalityForDifficulty 2 sampleIneqRand) =
      .ok [⟨1, "Given inequality",
            .ineq (IneqGen.buildInequalityForDifficulty 2 sampleIneqRand)⟩,
           ⟨2, "Solve for x", .solset s⟩] :=
  ⟨by decide, by decide, by decide,
   ineqSteps_exactly_two 2 sampleIneqRand (by decide) (by decide) (by decide)⟩

/-! ### Claim C7 -/

theorem generateEq_ok_parts (difficulty : ℤ) (r : EqGen.Rand)
    (hd : difficulty = 1 ∨ difficulty = 2 ∨ difficulty = 3 ∨ difficulty = 4)
    (x0 : ℤ) (hx0 : EqGen.chooseTargetSolution difficulty r = some x0)
    (lr : LinExpr × LinExpr)
    (hb : EqGen.buildEquationForDifficulty difficulty x0 r = some lr)
    (hvf : (EqGen.verifyEquation lr.1 lr.2 (x0 : ℚ)).1 = true)
    (cid : String) (hcid : EqGen.conceptMap difficulty = some cid) :
    EqGen.generateLinearEquationProblem difficulty r =
      .ok ⟨difficulty, lr.1, lr.2,
           EqGen.constructSolutionSteps difficulty lr.1 lr.2 (x0 : ℚ), (x0 : ℚ),
           true, (EqGen.verifyEquation lr.1 lr.2 (x0 : ℚ)).2, cid⟩ := by
  obtain ⟨lhs, rhs⟩ := lr
  unfold EqGen.generateLinearEquationProblem
  rw [if_neg (not_not_intro hd)]
  simp only [hx0, hb, hcid, hvf]
  simp [hvf]

theorem generateIneq_ok_parts (difficulty : ℤ) (r : IneqGen.Rand)
    (h1 : 1 ≤ difficulty) (h4 : difficulty ≤ 4)
    (hcoeff : (IneqGen.buildInequalityForDifficulty difficulty r).left.coeff ≠ 0)
    (cid : String) (hcid : IneqGen.conceptMap difficulty = some cid) :
    ∃ p, IneqGen.generateLinearInequalityProblem difficulty r = .ok p := by
  obtain ⟨s, hs, hsteps⟩ := ineqSteps_of_coeff_ne _ hcoeff
  have hverify : IneqGen.verifyInequality
      (IneqGen.buildInequalityForDifficulty difficulty r) = (true, strSolSet s) := by
    unfold IneqGen.verifyInequality
    rw [hs]
  have hgen : IneqGen.generateLinearInequalityProblem difficulty r =
      .ok ⟨difficulty, IneqGen.buildInequalityForDifficulty difficulty r,
           [⟨1, "Given inequality",
             .ineq (IneqGen.buildInequalityForDifficulty difficulty r)⟩,
            ⟨2, "Solve for x", .solset s⟩],
           strSolSet s, true, strSolSet s, cid⟩ := by
    unfold IneqGen.generateLinearInequalityProblem
    rw [if_neg (not_not_intro ⟨h1, h4⟩)]
    simp only [hverify, hs, hsteps, hcid]
    simp
  exact ⟨_, hgen⟩

/-- Claim C7: for every integer tier outside 1-4, the generate entry point of
both the equation generator and the inequality generator fails with the
tier-range construction error regardless of any random draw (so before any
specification is drawn), returning no partial problem; and for every tier in
1-4 with draws satisfying the drawing-loop post-conditions, both entry points
return a complete problem, so no tier-range error is raised. -/
theorem generate_tier_guard (difficulty : ℤ) :
    ((difficulty < 1 ∨ 4 < difficulty) →
      ∀ (rE : EqGen.Rand) (rI : IneqGen.Rand),
        EqGen.generateLinearEquationProblem difficulty rE =
          .error ("Invalid difficulty: " ++ toString difficulty
            ++ ". Must be 1-4.") ∧
        IneqGen.generateLinearInequalityProblem difficulty rI =
          .error ("Difficulty must be 1-4, got " ++ toString difficulty)) ∧
    (1 ≤ difficulty → difficulty ≤ 4 →
      ∀ (rE : EqGen.Rand) (rI : IneqGen.Rand), rE.Valid → rI.Valid →
        (∃ p, EqGen.generateLinearEquationProblem difficulty rE = .ok p) ∧
        (∃ p, IneqGen.generateLinearInequalityProblem difficulty rI = .ok p)) := by
  constructor
  · intro hout rE rI
    constructor
    · unfold EqGen.generateLinearEquationProblem
      rw [if_pos (by omega)]
    · unfold IneqGen.generateLinearInequalityProblem
      rw [if_pos (by omega)]
  · intro h1 h4 rE rI hvE hvI
    obtain ⟨hx0s, hx0l, hb1, ha2, hb2, ha3, hc3, hb3, hp4, hr4, hac4, hb4⟩ := hvE
    constructor
    · interval_cases difficulty
      · refine ⟨_, generateEq_ok_parts 1 rE (by norm_num) rE.x0small
          (by simp [EqGen.chooseTargetSolution])
          (EqGen.buildDifficulty1Equation rE.x0small rE.b1 rE.plus1)
          (by simp [EqGen.buildEquationForDifficulty]) ?_
          "alg1.linear_eq.one_step_int" (by simp [EqGen.conceptMap])⟩
        cases hp : rE.plus1 <;>
          simp only [EqGen.buildDifficulty1Equation, hp, Bool.false_eq_true,
            if_true, if_false] <;>
          refine verifyEquation_fst_true _ _ _ (by norm_num [constLin]) ?_ <;>
          (simp [LinExpr.eval, constLin]; try push_cast; try ring)
      · refine ⟨_, generateEq_ok_parts 2 rE (by norm_num) rE.x0small
          (by simp [EqGen.chooseTargetSolution])
          (EqGen.buildDifficulty2Equation rE.x0small rE.a2 rE.b2)
          (by simp [EqGen.buildEquationForDifficulty]) ?_
          "alg1.linear_eq.two_step_int" (by simp [EqGen.conceptMap])⟩
        simp only [EqGen.buildDifficulty2Equation]
        refine verifyEquation_fst_true _ _ _ ?_ ?_
        · norm_num [constLin]
          exact_mod_cast (by omega : rE.a2 ≠ 0)
        · simp [LinExpr.eval, constLin]
          try push_cast
          try ring
      · refine ⟨_, generateEq_ok_parts 3 rE (by norm_num) rE.x0large
          (by simp [EqGen.chooseTargetSolution])
          (EqGen.buildDifficulty3Equation rE.x0large rE.a3 rE.c3 rE.b3)
          (by simp [EqGen.buildEquationForDifficulty]) ?_
          "alg1.linear_eq.multistep_one_side" (by simp [EqGen.conceptMap])⟩
        simp only [EqGen.buildDifficulty3Equation]
        refine verifyEquation_fst_true _ _ _ ?_ ?_
        · show (rE.a3 : ℚ) ≠ (rE.c3 : ℚ)
          exact_mod_cast (by omega : rE.a3 ≠ rE.c3)
        · simp only [LinExpr.eval]
          try push_cast
          try ring
      · refine ⟨_, generateEq_ok_parts 4 rE (by norm_num) rE.x0large
          (by simp [EqGen.chooseTargetSolution])
          (EqGen.buildDifficulty4Equation rE.x0large rE.p4 rE.q4 rE.negA4
            rE.r4 rE.s4 rE.negC4 rE.b4)
          (by simp [EqGen.buildEquationForDifficulty]) ?_
          "alg1.linear_eq.both_sides" (by simp [EqGen.conceptMap])⟩
        simp only [EqGen.buildDifficulty4Equation]
        refine verifyEquation_fst_true _ _ _ hac4 ?_
        cases hA : rE.negA4 <;> cases hC : rE.negC4 <;>
          (simp [LinExpr.eval, hA, hC]; try push_cast; try ring)
    · refine generateIneq_ok_parts difficulty rI h1 h4
        (buildIneq_coeff_ne difficulty rI h1 h4 hvI) ?_ ?_
      · exact (IneqGen.conceptMap difficulty).getD ""
      · interval_cases difficulty <;> simp [IneqGen.conceptMap]

theorem generate_tier_guard_witness :
    (((7 : ℤ) < 1 ∨ (4 : ℤ) < 7) ∧
      EqGen.generateLinearEquationProblem 7 sampleEqRand =
        .error ("Invalid difficulty: " ++ toString (7 : ℤ) ++ ". Must be 1-4.") ∧
      IneqGen.generateLinearInequalityProblem 7 sampleIneqRand =
        .error ("Difficulty must be 1-4, got " ++ toString (7 : ℤ))) ∧
    ((1 : ℤ) ≤ 3 ∧ (3 : ℤ) ≤ 4 ∧ sampleEqRand.Valid ∧ sampleIneqRand.Valid ∧
      (∃ p, EqGen.generateLinearEquationProblem 3 sampleEqRand = .ok p) ∧
      (∃ p, IneqGen.generateLinearInequalityProblem 3 sampleIneqRand = .ok p)) := by
  have hvE : sampleEqRand.Valid := by
    norm_num [sampleEqRand, EqGen.Rand.Valid, EqGen.Rand.a4, EqGen.Rand.c4]
  have hvI : sampleIneqRand.Valid := by decide
  have hout := (generate_tier_guard 7).1 (by norm_num) sampleEqRand sampleIneqRand
  have hin := (generate_tier_guard 3).2 (by norm_num) (by norm_num)
    sampleEqRand sampleIneqRand hvE hvI
  exact ⟨⟨by norm_num, hout.1, hout.2⟩,
         by norm_num, by norm_num, hvE, hvI, hin.1, hin.2⟩
